import Mathlib

/-!
Verification of the pipelined management CLI
(`lte/gateway/python/scripts/pipelined_cli.py`): a shallow embedding of the
gRPC request construction performed by each subcommand, together with
spec-modelled fragments of the server-side controller (rule store, table
allocator, quota gating) that the CLI talks to.

Each CLI handler builds a protobuf request and hands it to the pipelined
service; the embedding captures the request value a handler constructs from
its parsed arguments, dropping the transport.  The diagnostics handlers are
embedded as functions from the outcome of the external dataplane dump to the
lines they print (or the exception they let escape).
-/

namespace PipelinedCli

/-- One step of Python `str.split` with an explicit one-character separator,
on the character list of the string: splitting the empty list yields one
empty field, and each separator occurrence starts a new field. -/
def pySplitAux (sep : Char) : List Char → List (List Char)
  | [] => [[]]
  | c :: cs =>
    let rest := pySplitAux sep cs
    if c = sep then [] :: rest
    else (c :: rest.headD []) :: rest.tail

/-- Embedding of Python `s.split(sep)` for a one-character separator, as the
CLI uses it on comma-separated arguments.  Notably `"".split(',') == [""]`. -/
def pySplit (sep : Char) (s : String) : List String :=
  (pySplitAux sep s.toList).map (fun cs => String.mk cs)

/-- Python truthiness of an optional string CLI argument: an omitted argument
(`None`) and the empty string are both falsy. -/
def pyTruthy : Option String → Bool
  | none => false
  | some s => !(s == "")

/-- The two values of the proto enum carried in `RequestOriginType.type`:
GX is the POLICY origin, GY the CHARGING origin. -/
inductive RequestOrigin
  | GX
  | GY
deriving DecidableEq, Repr

/-- Embedding of the `RequestOriginType` proto message. -/
structure RequestOriginType where
  type : RequestOrigin
deriving DecidableEq, Repr

/-- Embedding of the subscriber id proto produced by `SIDUtils.to_pb`. -/
structure SubscriberID where
  id : String
deriving DecidableEq, Repr

/-- Embedding of `SIDUtils.to_pb`: wraps the IMSI string (external
collaborator; only the carried identity matters here). -/
def SIDUtils.to_pb (imsi : String) : SubscriberID :=
  { id := imsi }

/-- Embedding of the IP-address proto built by
`convert_ipv4_str_to_ip_proto` (external collaborator; only the carried
address matters here). -/
structure IPAddress where
  address : String
deriving DecidableEq, Repr

/-- Embedding of `convert_ipv4_str_to_ip_proto`. -/
def convert_ipv4_str_to_ip_proto (s : String) : IPAddress :=
  { address := s }

/-- The `FlowMatch.Direction` proto enum values used by the CLI. -/
inductive FlowDirection
  | UPLINK
  | DOWNLINK
deriving DecidableEq, Repr

/-- Embedding of the `FlowMatch` proto message (only the fields the CLI
sets; unset proto fields keep their defaults). -/
structure FlowMatch where
  ip_dst : Option IPAddress := none
  ip_src : Option IPAddress := none
  direction : FlowDirection := FlowDirection.UPLINK
deriving DecidableEq, Repr

/-- Embedding of the `FlowDescription` proto message; `fmatch` embeds the
proto field named `match` (a Lean keyword). -/
structure FlowDescription where
  fmatch : FlowMatch
deriving DecidableEq, Repr

/-- Embedding of the `RedirectInformation` proto message; `support` and
`address_type` carry the raw enum numbers the CLI passes (1 = ENABLED,
2 = URL). -/
structure RedirectInformation where
  support : Nat
  address_type : Nat
  server_address : String
deriving DecidableEq, Repr

/-- Embedding of the `PolicyRule` proto message (the fields the CLI sets;
`priority` and `hard_timeout` are uint32 fields, embedded as Nat). -/
structure PolicyRule where
  id : String
  priority : Nat := 0
  hard_timeout : Nat := 0
  flow_list : List FlowDescription := []
  redirect : Option RedirectInformation := none
deriving DecidableEq, Repr, Inhabited

/-- Embedding of the `ActivateFlowsRequest` proto message. -/
structure ActivateFlowsRequest where
  sid : SubscriberID
  ip_addr : String
  rule_ids : List String := []
  dynamic_rules : List PolicyRule := []
  request_origin : RequestOriginType
deriving DecidableEq, Repr

/-- Embedding of the `DeactivateFlowsRequest` proto message. -/
structure DeactivateFlowsRequest where
  sid : SubscriberID
  ip_addr : String
  rule_ids : List String := []
  request_origin : RequestOriginType
deriving DecidableEq, Repr

/-- Embedding of `activate_flows`: the request it sends, built from the
parsed `--imsi`, `--ipv4` and `--rule_ids` arguments.  `--rule_ids` has an
argparse default, so it is always a string and is split unconditionally. -/
def activate_flows (imsi ipv4 rule_ids : String) : ActivateFlowsRequest :=
  { sid := SIDUtils.to_pb imsi
    ip_addr := ipv4
    rule_ids := pySplit ',' rule_ids
    request_origin := { type := RequestOrigin.GX } }

/-- Embedding of `deactivate_flows`: the request it sends.  `--rule_ids` has
no argparse default, so the handler guards on Python truthiness before
splitting (`args.rule_ids.split(',') if args.rule_ids else []`). -/
def deactivate_flows (imsi ipv4 : String) (rule_ids : Option String) :
    DeactivateFlowsRequest :=
  { sid := SIDUtils.to_pb imsi
    ip_addr := ipv4
    rule_ids := if pyTruthy rule_ids then pySplit ',' (rule_ids.getD "") else []
    request_origin := { type := RequestOrigin.GX } }

/-- Embedding of `activate_dynamic_rule`: the request it sends, carrying one
inline POLICY (GX) dynamic rule with the caller-supplied priority and hard
timeout and an uplink/downlink flow-descriptor pair for `--ipv4_dst`. -/
def activate_dynamic_rule (imsi ipv4 rule_id : String)
    (priority hard_timeout : Nat) (ipv4_dst : String) : ActivateFlowsRequest :=
  { sid := SIDUtils.to_pb imsi
    ip_addr := ipv4
    dynamic_rules := [{
      id := rule_id
      priority := priority
      hard_timeout := hard_timeout
      flow_list := [
        { fmatch := { ip_dst := some (convert_ipv4_str_to_ip_proto ipv4_dst)
                      direction := FlowDirection.UPLINK } },
        { fmatch := { ip_src := some (convert_ipv4_str_to_ip_proto ipv4_dst)
                      direction := FlowDirection.DOWNLINK } }] }]
    request_origin := { type := RequestOrigin.GX } }

/-- Embedding of `activate_gy_redirect`: the request it sends, carrying one
inline CHARGING (GY) dynamic rule with the hard-coded priority 999, an empty
flow list and a redirect directive for `--redirect_addr`. -/
def activate_gy_redirect (imsi ipv4 rule_id redirect_addr : String) :
    ActivateFlowsRequest :=
  { sid := SIDUtils.to_pb imsi
    ip_addr := ipv4
    dynamic_rules := [{
      id := rule_id
      priority := 999
      flow_list := []
      redirect := some { support := 1
                         address_type := 2
                         server_address := redirect_addr } }]
    request_origin := { type := RequestOrigin.GY } }

/-- Embedding of `deactivate_gy_flows`: like `deactivate_flows` but with
CHARGING (GY) origin. -/
def deactivate_gy_flows (imsi ipv4 : String) (rule_ids : Option String) :
    DeactivateFlowsRequest :=
  { sid := SIDUtils.to_pb imsi
    ip_addr := ipv4
    rule_ids := if pyTruthy rule_ids then pySplit ',' (rule_ids.getD "") else []
    request_origin := { type := RequestOrigin.GY } }

/-- Embedding of the `SubscriberQuotaUpdate` proto message; `update_type`
carries the integer the CLI parsed (`0` valid quota, `1` no quota,
`2` terminate). -/
structure SubscriberQuotaUpdate where
  sid : SubscriberID
  mac_addr : String
  update_type : Int
deriving DecidableEq, Repr

/-- Embedding of the `UpdateSubscriberQuotaStateRequest` proto message. -/
structure UpdateSubscriberQuotaStateRequest where
  updates : List SubscriberQuotaUpdate
deriving DecidableEq, Repr

/-- Embedding of `update_quota`: the request it sends, with a single update
for the given subscriber, MAC and update type. -/
def update_quota (imsi mac : String) (update_type : Int) :
    UpdateSubscriberQuotaStateRequest :=
  { updates := [{ sid := SIDUtils.to_pb imsi
                  mac_addr := mac
                  update_type := update_type }] }

/-- Embedding of one entry of the `GetAllTableAssignments` response. -/
structure TableAssignment where
  app_name : String
  main_table : Nat
  scratch_tables : List Nat
deriving DecidableEq, Repr

/-- Embedding of `get_table_assignment`: from the response snapshot and the
optional `--apps` argument, the list of assignments the command displays, in
snapshot order.  A truthy `--apps` is comma-split and used as a membership
filter on `app_name`; otherwise every assignment is listed. -/
def get_table_assignment (table_assignments : List TableAssignment)
    (apps : Option String) : List TableAssignment :=
  if pyTruthy apps then
    let app_filter := pySplit ',' (apps.getD "")
    table_assignments.filter (fun t => decide (t.app_name ∈ app_filter))
  else table_assignments

/-- The (app name, main table, scratch tables) triples `get_table_assignment`
prints, one row per displayed assignment; the textual padding is dropped. -/
def get_table_assignment_rows (table_assignments : List TableAssignment)
    (apps : Option String) : List (String × Nat × List Nat) :=
  (get_table_assignment table_assignments apps).map
    (fun t => (t.app_name, t.main_table, t.scratch_tables))

/-- The value of errno.EPERM. -/
def EPERM : Int := 1

/-- Outcome of the external dataplane flow dump (`BridgeTools`): a flow
listing, a `subprocess.CalledProcessError` with its return code, or any
other exception. -/
inductive DumpOutcome
  | ok : List String → DumpOutcome
  | calledProcessError : Int → DumpOutcome
  | otherError : String → DumpOutcome
deriving DecidableEq, Repr

/-- Embedding of `display_raw_flows`: the lines it prints as a function of
the dump outcome, or the exception it lets propagate.  A
`CalledProcessError` with return code `EPERM` prints the root warning, any
other `CalledProcessError` prints nothing, and other exceptions escape. -/
def display_raw_flows (dump : DumpOutcome) : Except String (List String) :=
  match dump with
  | DumpOutcome.ok flows => Except.ok flows
  | DumpOutcome.calledProcessError rc =>
      if rc = EPERM then Except.ok ["Need to run as root to dump flows"]
      else Except.ok []
  | DumpOutcome.otherError e => Except.error e

/-- Embedding of `_display_flows` (the `display_flows` path): the lines it
prints as a function of the annotated-dump outcome, with the same
`CalledProcessError` handling as `display_raw_flows`; the table-assignment
lookup it performs only feeds the external dump, which the outcome
subsumes. -/
def _display_flows (dump : DumpOutcome) : Except String (List String) :=
  match dump with
  | DumpOutcome.ok flows => Except.ok flows
  | DumpOutcome.calledProcessError rc =>
      if rc = EPERM then Except.ok ["Need to run as root to dump flows"]
      else Except.ok []
  | DumpOutcome.otherError e => Except.error e

/-- Modelled from the spec: an activation record of the server-side Rule
Store, keyed by (subscriber, rule id, origin).  The store implementation is
not under `src/`; only the key structure matters for origin scoping. -/
structure RuleRecord where
  sid : String
  rule_id : String
  origin : RequestOrigin
deriving DecidableEq, Repr

/-- Modelled from the spec: the server-side handling of a
`DeactivateFlowsRequest` against the Rule Store.  Named rule ids remove the
matching records of that subscriber and origin; an empty rule-id list
removes every record of that subscriber and origin (session teardown). -/
def apply_deactivate (store : List RuleRecord) (req : DeactivateFlowsRequest) :
    List RuleRecord :=
  if req.rule_ids.isEmpty then
    store.filter (fun r =>
      !decide (r.sid = req.sid.id ∧ r.origin = req.request_origin.type))
  else
    store.filter (fun r =>
      !decide (r.sid = req.sid.id ∧ r.origin = req.request_origin.type ∧
        r.rule_id ∈ req.rule_ids))

/-- Modelled from the spec: the quota-gating rules of the Check Quota app,
one per subscriber, carrying the current quota state.  An update with
`update_type = 2` (TERMINATE) removes the gating rule of that subscriber entirely;
the other update types rewrite its state in place. -/
def apply_quota_update (gating : List (String × Int))
    (u : SubscriberQuotaUpdate) : List (String × Int) :=
  if u.update_type = 2 then
    gating.filter (fun g => !decide (g.1 = u.sid.id))
  else
    gating.map (fun g => if g.1 = u.sid.id then (g.1, u.update_type) else g)

/-- The table numbers an assignment owns: its main table and its scratch
tables. -/
def TableAssignment.tables (t : TableAssignment) : List Nat :=
  t.main_table :: t.scratch_tables

/-- Two table assignments are disjoint when no table number belongs to
both. -/
def TablesDisjoint (a b : TableAssignment) : Prop :=
  ∀ n, n ∈ a.tables → n ∉ b.tables

/-- Modelled from the spec: the `register` operation of the Table Allocator, not under
`src/`.  Registering an application whose main or scratch tables collide
with an already-registered application is a fatal startup-time
configuration error; otherwise the assignment is appended. -/
def register (state : List TableAssignment) (t : TableAssignment) :
    Except String (List TableAssignment) :=
  if state.any (fun a => a.tables.any (fun n => decide (n ∈ t.tables))) then
    Except.error "table assignment collision"
  else
    Except.ok (state ++ [t])

/-- C2: every request built by `activate_gy_redirect` has CHARGING (GY)
origin and exactly one dynamic rule, and that rule has an empty flow list, a
populated redirect directive whose server address is the caller-supplied
redirect address (support 1, address type 2), and the fixed priority 999,
for every combination of caller inputs. -/
theorem activate_gy_redirect_request_shape (imsi ipv4 rule_id redirect_addr : String) :
    (activate_gy_redirect imsi ipv4 rule_id redirect_addr).request_origin.type
        = RequestOrigin.GY
    ∧ (activate_gy_redirect imsi ipv4 rule_id redirect_addr).dynamic_rules
        = [{ id := rule_id
             priority := 999
             hard_timeout := 0
             flow_list := []
             redirect := some { support := 1
                                address_type := 2
                                server_address := redirect_addr } }] :=
  ⟨rfl, rfl⟩

/-- C3: for both deactivation commands, an omitted rule-id argument and an
explicitly empty rule-id argument both yield a request with an empty
`rule_ids` list, and against the spec-modelled rule store such a request
removes every record of that subscriber and origin (session teardown). -/
theorem deactivate_omitted_and_empty_rule_ids_agree (imsi ipv4 : String) :
    (deactivate_flows imsi ipv4 none).rule_ids = []
    ∧ (deactivate_flows imsi ipv4 (some "")).rule_ids = []
    ∧ (deactivate_gy_flows imsi ipv4 none).rule_ids = []
    ∧ (deactivate_gy_flows imsi ipv4 (some "")).rule_ids = []
    ∧ (∀ store : List RuleRecord,
        apply_deactivate store (deactivate_flows imsi ipv4 (some ""))
          = apply_deactivate store (deactivate_flows imsi ipv4 none))
    ∧ (∀ store : List RuleRecord,
        ∀ r ∈ apply_deactivate store (deactivate_flows imsi ipv4 none),
          ¬(r.sid = imsi ∧ r.origin = RequestOrigin.GX)) := by
  refine ⟨rfl, rfl, rfl, rfl, fun store => rfl, fun store r hr hcon => ?_⟩
  simp [apply_deactivate, deactivate_flows, SIDUtils.to_pb, pyTruthy,
    List.mem_filter, hcon.1, hcon.2] at hr

/-- C9: `activate_flows` splits its rule-id argument unconditionally, so the
empty string yields the one-element rule-id list `[""]` — not the empty
list — while `deactivate_flows` maps the empty string to the empty list:
the two commands treat an empty rule-id argument differently. -/
theorem activate_empty_rule_ids_yields_singleton_empty_string (imsi ipv4 : String) :
    (activate_flows imsi ipv4 "").rule_ids = [""]
    ∧ (activate_flows imsi ipv4 "").rule_ids ≠ []
    ∧ (deactivate_flows imsi ipv4 (some "")).rule_ids = [] :=
  ⟨rfl, by simp [activate_flows, pySplit, pySplitAux], rfl⟩

/-- C5: on a dump failing with a `CalledProcessError` whose return code is
`EPERM`, both `display_raw_flows` and the `display_flows` path print exactly
the message "Need to run as root to dump flows", which differs from the
output on a genuinely empty flow set. -/
theorem eperm_dump_failure_reported_distinctly :
    display_raw_flows (DumpOutcome.calledProcessError EPERM)
        = Except.ok ["Need to run as root to dump flows"]
    ∧ _display_flows (DumpOutcome.calledProcessError EPERM)
        = Except.ok ["Need to run as root to dump flows"]
    ∧ display_raw_flows (DumpOutcome.calledProcessError EPERM)
        ≠ display_raw_flows (DumpOutcome.ok [])
    ∧ _display_flows (DumpOutcome.calledProcessError EPERM)
        ≠ _display_flows (DumpOutcome.ok []) := by
  refine ⟨rfl, rfl, ?_, ?_⟩ <;> simp [display_raw_flows, _display_flows, EPERM]

/-- C10: on a dump failing with a `CalledProcessError` whose return code is
not `EPERM`, both display paths print nothing — indistinguishable from a
genuinely empty flow set — and any other exception propagates to the
caller. -/
theorem non_eperm_dump_failure_prints_nothing (rc : Int) (e : String)
    (h : rc ≠ EPERM) :
    display_raw_flows (DumpOutcome.calledProcessError rc) = Except.ok []
    ∧ _display_flows (DumpOutcome.calledProcessError rc) = Except.ok []
    ∧ display_raw_flows (DumpOutcome.ok []) = Except.ok []
    ∧ _display_flows (DumpOutcome.ok []) = Except.ok []
    ∧ display_raw_flows (DumpOutcome.otherError e) = Except.error e
    ∧ _display_flows (DumpOutcome.otherError e) = Except.error e := by
  simp [display_raw_flows, _display_flows, h]

/-- C10 witness: the theorem at return code 13 (EACCES) and a transport
error string. -/
theorem non_eperm_dump_failure_prints_nothing_witness :
    display_raw_flows (DumpOutcome.calledProcessError 13) = Except.ok [] :=
  (non_eperm_dump_failure_prints_nothing 13 "connection reset" (by decide)).1

/-- C1 counterexample: the claim that the fixed redirect priority 999
exceeds every priority `activate_dynamic_rule` can place on a POLICY
dynamic rule is false — with caller-supplied priority 1000, the POLICY
rule priority is not below the GY redirect rule priority. -/
theorem gy_redirect_priority_not_above_all_policy_priorities :
    ¬(List.all
        (activate_dynamic_rule "IMSI12345" "120.12.1.9" "rule1" 1000 0
          "8.8.8.8").dynamic_rules
        (fun gx => List.all
          (activate_gy_redirect "IMSI12345" "120.12.1.9" "redirect"
            "http://example.org/").dynamic_rules
          (fun gy => decide (gx.priority < gy.priority))) = true) := by
  simp [activate_dynamic_rule, activate_gy_redirect]

/-- C1 (amended): `activate_gy_redirect` always sends priority 999 and
`activate_dynamic_rule` passes the caller-supplied priority through
unmodified, so the CHARGING redirect rule compares as higher priority than
the POLICY dynamic rule exactly when the caller-supplied priority is at
most 998; nothing clamps a larger caller-supplied priority. -/
theorem gy_redirect_priority_exceeds_policy_priority_below_999
    (imsi ipv4 rule_id ipv4_dst i2 v2 r2 addr : String)
    (priority hard_timeout : Nat) (hp : priority ≤ 998) :
    ((activate_gy_redirect i2 v2 r2 addr).dynamic_rules.map
        PolicyRule.priority = [999])
    ∧ ((activate_dynamic_rule imsi ipv4 rule_id priority hard_timeout
        ipv4_dst).dynamic_rules.map PolicyRule.priority = [priority])
    ∧ (∀ gy ∈ (activate_gy_redirect i2 v2 r2 addr).dynamic_rules,
        ∀ gx ∈ (activate_dynamic_rule imsi ipv4 rule_id priority hard_timeout
          ipv4_dst).dynamic_rules, gx.priority < gy.priority) := by
  refine ⟨rfl, rfl, fun gy hgy gx hgx => ?_⟩
  simp [activate_gy_redirect, activate_dynamic_rule] at hgy hgx
  subst hgy
  subst hgx
  simpa using Nat.lt_of_le_of_lt hp (by norm_num)

/-- C1 witness: the amended theorem at the CLI defaults (priority 0). -/
theorem gy_redirect_priority_exceeds_policy_priority_below_999_witness :
    (activate_gy_redirect "IMSI12345" "120.12.1.9" "redirect"
      "http://example.org/").dynamic_rules.map PolicyRule.priority = [999] :=
  (gy_redirect_priority_exceeds_policy_priority_below_999
    "IMSI12345" "120.12.1.9" "rule1" "8.8.8.8"
    "IMSI12345" "120.12.1.9" "redirect" "http://example.org/"
    0 0 (by decide)).1

/-- C4: `deactivate_flows` always builds a POLICY (GX) request and
`deactivate_gy_flows` always builds a CHARGING (GY) request, and against
the spec-modelled rule store a deactivation request of either origin leaves
every record of the other origin in place, whatever the rule-id argument. -/
theorem deactivate_requests_are_origin_scoped (imsi ipv4 : String)
    (rids : Option String) (store : List RuleRecord) :
    (deactivate_flows imsi ipv4 rids).request_origin.type = RequestOrigin.GX
    ∧ (deactivate_gy_flows imsi ipv4 rids).request_origin.type
        = RequestOrigin.GY
    ∧ (∀ r ∈ store, r.origin ≠ RequestOrigin.GX →
        r ∈ apply_deactivate store (deactivate_flows imsi ipv4 rids))
    ∧ (∀ r ∈ store, r.origin ≠ RequestOrigin.GY →
        r ∈ apply_deactivate store (deactivate_gy_flows imsi ipv4 rids)) := by
  refine ⟨rfl, rfl, fun r hr hor => ?_, fun r hr hor => ?_⟩ <;>
    · unfold apply_deactivate
      split <;> simp [deactivate_flows, deactivate_gy_flows, List.mem_filter,
        hr, hor]

/-- C6: starting from pairwise-disjoint table assignments, a successful
`register` keeps the union of all main and scratch table numbers pairwise
disjoint across applications, and a registration whose tables collide with
the tables of an already-registered application is rejected as a fatal configuration
error (and changes nothing). -/
theorem register_preserves_table_disjointness
    (state : List TableAssignment) (t : TableAssignment)
    (hstate : List.Pairwise TablesDisjoint state) :
    (∀ state2, register state t = Except.ok state2 →
      List.Pairwise TablesDisjoint state2)
    ∧ ((∃ a, a ∈ state ∧ ∃ n, n ∈ a.tables ∧ n ∈ t.tables) →
      register state t = Except.error "table assignment collision") := by
  constructor
  · intro state2 hok
    unfold register at hok
    by_cases hc : state.any
        (fun a => a.tables.any (fun n => decide (n ∈ t.tables))) = true
    · rw [if_pos hc] at hok
      exact absurd hok (by simp)
    · rw [if_neg hc] at hok
      cases hok
      rw [List.pairwise_append]
      refine ⟨hstate, List.pairwise_singleton _ _, fun a ha b hb => ?_⟩
      rw [List.mem_singleton] at hb
      subst hb
      intro n hna hnb
      exact hc (by
        rw [List.any_eq_true]
        exact ⟨a, ha, by rw [List.any_eq_true]; exact ⟨n, hna, by simpa using hnb⟩⟩)
  · rintro ⟨a, ha, n, hna, hnt⟩
    have hc : state.any
        (fun a => a.tables.any (fun n => decide (n ∈ t.tables))) = true := by
      rw [List.any_eq_true]
      exact ⟨a, ha, by rw [List.any_eq_true]; exact ⟨n, hna, by simpa using hnt⟩⟩
    simp [register, hc]

/-- C6 witness: the theorem at a two-application layout, showing the
registered state stays pairwise disjoint. -/
theorem register_preserves_table_disjointness_witness :
    List.Pairwise TablesDisjoint
      [{ app_name := "enforcement", main_table := 5, scratch_tables := [21] },
       { app_name := "ue_mac", main_table := 6, scratch_tables := [] }] :=
  (register_preserves_table_disjointness
      [{ app_name := "enforcement", main_table := 5, scratch_tables := [21] }]
      { app_name := "ue_mac", main_table := 6, scratch_tables := [] }
      (List.pairwise_singleton _ _)).1 _ (by rfl)

/-- C7: an `update_quota` request carries exactly the update type given by the caller,
which under the tri-state hypothesis is one of 0 (valid quota), 1 (quota
exhausted) or 2 (terminate), and applying a TERMINATE (2) update from the
request to the spec-modelled gating rules leaves no gating rule for that
subscriber — removal, not a content update. -/
theorem update_quota_tristate_and_terminate_removes
    (imsi mac : String) (t : Int) (ht : t = 0 ∨ t = 1 ∨ t = 2)
    (gating : List (String × Int)) :
    ((update_quota imsi mac t).updates.map SubscriberQuotaUpdate.update_type
        = [t])
    ∧ (∀ u ∈ (update_quota imsi mac t).updates,
        u.update_type = 0 ∨ u.update_type = 1 ∨ u.update_type = 2)
    ∧ (∀ u ∈ (update_quota imsi mac t).updates, t = 2 →
        ∀ g ∈ apply_quota_update gating u, g.1 ≠ imsi) := by
  refine ⟨rfl, by simpa [update_quota] using ht, fun u hu ht2 g hg => ?_⟩
  subst ht2
  simp [update_quota] at hu
  subst hu
  simp [apply_quota_update, update_quota, SIDUtils.to_pb, List.mem_filter] at hg
  exact hg.2

/-- C7 witness: the theorem at update type 2 for a concrete subscriber. -/
theorem update_quota_tristate_and_terminate_removes_witness :
    (update_quota "IMSI12345" "5e:cc:cc:b1:49:ff" 2).updates.map
      SubscriberQuotaUpdate.update_type = [2] :=
  (update_quota_tristate_and_terminate_removes "IMSI12345" "5e:cc:cc:b1:49:ff"
    2 (by decide) [("IMSI12345", 1)]).1

/-- C8: `get_table_assignment` is a pure projection of the response
snapshot: with a non-empty filter argument it displays exactly the
assignments whose app name is in the comma-split filter, as a subsequence
of the snapshot (order preserved); with no filter it displays the whole
snapshot; and the printed rows are the (app name, main table, scratch
tables) triples of the displayed assignments. -/
theorem get_table_assignment_filter_spec
    (tas : List TableAssignment) (s : String) (hs : s ≠ "") :
    (∀ t ∈ tas,
      t ∈ get_table_assignment tas (some s) ↔ t.app_name ∈ pySplit ',' s)
    ∧ (get_table_assignment tas (some s)).Sublist tas
    ∧ get_table_assignment tas none = tas
    ∧ get_table_assignment_rows tas (some s)
        = (get_table_assignment tas (some s)).map
            (fun t => (t.app_name, t.main_table, t.scratch_tables)) := by
  have htr : get_table_assignment tas (some s)
      = tas.filter (fun t => decide (t.app_name ∈ pySplit ',' s)) := by
    simp [get_table_assignment, pyTruthy, hs]
  refine ⟨fun t ht => ?_, ?_, rfl, rfl⟩
  · rw [htr, List.mem_filter]
    simp [ht]
  · rw [htr]
    exact List.filter_sublist tas

/-- C8 witness: the theorem at a concrete snapshot and the filter
"enforcement". -/
theorem get_table_assignment_filter_spec_witness :
    (get_table_assignment
      [{ app_name := "enforcement", main_table := 5, scratch_tables := [21] },
       { app_name := "ue_mac", main_table := 6, scratch_tables := [] }]
      (some "enforcement")).Sublist
      [{ app_name := "enforcement", main_table := 5, scratch_tables := [21] },
       { app_name := "ue_mac", main_table := 6, scratch_tables := [] }] :=
  (get_table_assignment_filter_spec
    [{ app_name := "enforcement", main_table := 5, scratch_tables := [21] },
     { app_name := "ue_mac", main_table := 6, scratch_tables := [] }]
    "enforcement" (by decide)).2.1

end PipelinedCli
